import Mathlib

/-!
Shallow embedding of `src/src/cpp/transport/UDPv6Transport.cpp` (eProsima
Fast-DDS, UDPv6 transport).  Machine integers are modelled as `Nat`/`Int`;
the operating-system effects the transport consumes (local interface
enumeration, socket binding, datagram writes) are modelled as an explicit
environment `Env` of oracles; the mutable socket registries
(`mOutputSockets`, `mGranularOutputSockets`, `mInputSockets`) are modelled
as association lists inside a `TransportState`, and every member function
becomes a pure function from configuration, environment and state to a
result and a new state.
-/

set_option autoImplicit false

namespace UDPv6Transport

/-- A 16-byte IPv6 address, one `Nat` byte per index. -/
abbrev Addr := Fin 16 → Nat

/-- The wildcard address `[0:0:0:0:0:0:0:0]` (`ip::address_v6::any()`). -/
def anyAddr : Addr := fun _ => 0

/-- Locator kind tag for UDPv6 (value from the Fast-DDS locator header). -/
def LOCATOR_KIND_UDPv6 : Int := 2

/-- Locator kind tag for UDPv4, used as a concrete foreign kind. -/
def LOCATOR_KIND_UDPv4 : Int := 1

/-- `Locator_t`: kind tag, 32-bit port, 16-byte address. -/
structure Locator where
  kind : Int
  port : Nat
  address : Addr

instance : DecidableEq Locator := fun a b =>
  if h : a.kind = b.kind ∧ a.port = b.port ∧ a.address = b.address then
    isTrue (by
      obtain ⟨h1, h2, h3⟩ := h
      cases a; cases b
      simp only at h1 h2 h3
      subst h1; subst h2; subst h3; rfl)
  else
    isFalse (fun he => h (by subst he; exact ⟨rfl, rfl, rfl⟩))

/-- A bound UDP socket, identified by the local address and port it was
bound to (`OpenAndBindUnicastOutputSocket` / `OpenAndBindInputSocket`). -/
abbrev Socket := Addr × Nat

/-- `IPFinder::info_IP::type` tag. -/
inductive IPType where
  | IP4 : IPType
  | IP6 : IPType
deriving DecidableEq

/-- One entry of `IPFinder::getIPs`: family tag, interface address (the
parsed `name` field) and the locator the finder reports for it. -/
structure InfoIP where
  ipType : IPType
  name : Addr
  locator : Locator

/-- Environment of operating-system oracles consumed by the transport:
the local interface list, whether a given output/input bind succeeds
(binding throws `system_error` on failure in the source), and whether a
`send_to` on a given socket towards a given remote locator succeeds. -/
structure Env where
  interfaces : List InfoIP
  outBindOk : Addr → Nat → Bool
  inBindOk : Nat → Bool
  writeOk : Socket → Locator → Bool

/-- `UDPv6TransportDescriptor` data captured at construction. -/
structure TransportConfig where
  maxMessageSize : Nat
  sendBufferSize : Nat
  receiveBufferSize : Nat
  granularMode : Bool
  interfaceWhiteList : List Addr

/-- Association-list lookup with decidable key equality (`map::find`). -/
def alookup {α β : Type} [DecidableEq α] (k : α) : List (α × β) → Option β
  | [] => none
  | (a, b) :: rest => if a = k then some b else alookup k rest

/-- Association-list update-or-append (`map::operator[] = v`). -/
def ainsert {α β : Type} [DecidableEq α] (k : α) (v : β) : List (α × β) → List (α × β)
  | [] => [(k, v)]
  | (a, b) :: rest => if a = k then (k, v) :: rest else (a, b) :: ainsert k v rest

/-- Association-list insert-if-absent (`map::emplace` / `map::insert`,
which do not overwrite an existing key). -/
def ainsertNew {α β : Type} [DecidableEq α] (k : α) (v : β) (m : List (α × β)) :
    List (α × β) :=
  if (alookup k m).isSome then m else m ++ [(k, v)]

/-- Association-list key removal (`map::erase(key)`). -/
def aerase {α β : Type} [DecidableEq α] (k : α) : List (α × β) → List (α × β)
  | [] => []
  | (a, b) :: rest => if a = k then aerase k rest else (a, b) :: aerase k rest

/-- The three socket registries plus the multicast groups joined so far
(a `join_group` socket option set on the input socket of a port). -/
structure TransportState where
  outputSockets : List (Nat × List Socket)
  granularOutputSockets : List (Locator × Socket)
  inputSockets : List (Nat × Socket)
  joinedGroups : List (Nat × Addr)

/-- `mOutputSockets[port].push_back(sock)`: appends to the socket vector
of `port`, creating the entry when absent. -/
def pushSocketAt (port : Nat) (sock : Socket) (m : List (Nat × List Socket)) :
    List (Nat × List Socket) :=
  match alookup port m with
  | some socks => ainsert port (socks ++ [sock]) m
  | none => m ++ [(port, [sock])]

/-- `GetIP6s`: interface enumeration filtered to the IPv6 family. -/
def GetIP6s (infos : List InfoIP) : List InfoIP :=
  infos.filter (fun i => decide (i.ipType = IPType.IP6))

/-- `UDPv6Transport::IsLocatorSupported`. -/
def IsLocatorSupported (l : Locator) : Bool :=
  l.kind == LOCATOR_KIND_UDPv6

/-- `UDPv6Transport::IsInputChannelOpen`. -/
def IsInputChannelOpen (s : TransportState) (l : Locator) : Bool :=
  IsLocatorSupported l && (alookup l.port s.inputSockets).isSome

/-- `UDPv6Transport::IsOutputChannelOpen`. -/
def IsOutputChannelOpen (cfg : TransportConfig) (s : TransportState) (l : Locator) : Bool :=
  if !IsLocatorSupported l then false
  else if cfg.granularMode then (alookup l s.granularOutputSockets).isSome
  else (alookup l.port s.outputSockets).isSome

/-- `IsMulticastAddress` (file-static): first address byte is `0xFF`. -/
def IsMulticastAddress (l : Locator) : Bool :=
  l.address 0 == 255

/-- `UDPv6Transport::IsInterfaceAllowed`. -/
def IsInterfaceAllowed (cfg : TransportConfig) (ip : Addr) : Bool :=
  if cfg.interfaceWhiteList.isEmpty then true
  else if decide (ip = anyAddr) then true
  else decide (ip ∈ cfg.interfaceWhiteList)

/-- `UDPv6Transport::OpenAndBindUnicastOutputSocket`: `none` models the
`system_error` thrown when binding fails. -/
def OpenAndBindUnicastOutputSocket (env : Env) (a : Addr) (port : Nat) : Option Socket :=
  if env.outBindOk a port then some (a, port) else none

/-- The whitelist loop body of `OpenAndBindOutputSockets`: binds one
socket per allowed interface; the first bind failure aborts the loop
(the exception) and rolls the port's entry back (`erase` in the catch). -/
def bindWhitelisted (cfg : TransportConfig) (env : Env) (port : Nat) :
    List InfoIP → List (Nat × List Socket) → Bool × List (Nat × List Socket)
  | [], m => (true, m)
  | info :: rest, m =>
    if IsInterfaceAllowed cfg info.name then
      match OpenAndBindUnicastOutputSocket env info.name port with
      | some sock => bindWhitelisted cfg env port rest (pushSocketAt port sock m)
      | none => (false, aerase port m)
    else
      bindWhitelisted cfg env port rest m

/-- `UDPv6Transport::OpenAndBindOutputSockets`. -/
def OpenAndBindOutputSockets (cfg : TransportConfig) (env : Env) (s : TransportState)
    (port : Nat) : Bool × TransportState :=
  if cfg.interfaceWhiteList.isEmpty then
    match OpenAndBindUnicastOutputSocket env anyAddr port with
    | some sock => (true, { s with outputSockets := pushSocketAt port sock s.outputSockets })
    | none => (false, { s with outputSockets := aerase port s.outputSockets })
  else
    match bindWhitelisted cfg env port (GetIP6s env.interfaces) s.outputSockets with
    | (ok, m) => (ok, { s with outputSockets := m })

/-- `UDPv6Transport::OpenAndBindGranularOutputSocket`. -/
def OpenAndBindGranularOutputSocket (cfg : TransportConfig) (env : Env)
    (s : TransportState) (l : Locator) : Bool × TransportState :=
  if !IsInterfaceAllowed cfg l.address then (false, s)
  else
    match OpenAndBindUnicastOutputSocket env l.address l.port with
    | some sock =>
        (true, { s with granularOutputSockets := ainsertNew l sock s.granularOutputSockets })
    | none =>
        (false, { s with granularOutputSockets := aerase l s.granularOutputSockets })

/-- `UDPv6Transport::OpenOutputChannel`. -/
def OpenOutputChannel (cfg : TransportConfig) (env : Env) (s : TransportState)
    (l : Locator) : Bool × TransportState :=
  if IsOutputChannelOpen cfg s l || !IsLocatorSupported l then (false, s)
  else if cfg.granularMode then OpenAndBindGranularOutputSocket cfg env s l
  else OpenAndBindOutputSockets cfg env s l.port

/-- `UDPv6Transport::OpenAndBindInputSockets`. -/
def OpenAndBindInputSockets (env : Env) (s : TransportState) (port : Nat) :
    Bool × TransportState :=
  if env.inBindOk port then
    (true, { s with inputSockets := ainsertNew port (anyAddr, port) s.inputSockets })
  else
    (false, { s with inputSockets := aerase port s.inputSockets })

/-- `UDPv6Transport::OpenInputChannel`: opens the per-port socket when the
channel is not yet open, then joins the multicast group silently when the
locator is multicast and the channel is (now) open. -/
def OpenInputChannel (cfg : TransportConfig) (env : Env) (s : TransportState)
    (l : Locator) : Bool × TransportState :=
  if !IsLocatorSupported l then (false, s)
  else
    let r := if !IsInputChannelOpen s l then OpenAndBindInputSockets env s l.port
             else (false, s)
    let s2 := if IsMulticastAddress l && IsInputChannelOpen r.2 l then
                { r.2 with joinedGroups := r.2.joinedGroups ++ [(l.port, l.address)] }
              else r.2
    (r.1, s2)

/-- `UDPv6Transport::CloseOutputChannel`; the third component is the list
of sockets that were cancelled and closed. -/
def CloseOutputChannel (cfg : TransportConfig) (s : TransportState) (l : Locator) :
    Bool × TransportState × List Socket :=
  if !IsOutputChannelOpen cfg s l then (false, s, [])
  else if cfg.granularMode then
    match alookup l s.granularOutputSockets with
    | some sock =>
        (true, { s with granularOutputSockets := aerase l s.granularOutputSockets }, [sock])
    | none => (false, s, [])
  else
    match alookup l.port s.outputSockets with
    | some socks =>
        (true, { s with outputSockets := aerase l.port s.outputSockets }, socks)
    | none => (false, s, [])

/-- `UDPv6Transport::CloseInputChannel`; the third component is the list
of sockets that were cancelled and closed. -/
def CloseInputChannel (s : TransportState) (l : Locator) :
    Bool × TransportState × List Socket :=
  if !IsInputChannelOpen s l then (false, s, [])
  else
    match alookup l.port s.inputSockets with
    | some sock => (true, { s with inputSockets := aerase l.port s.inputSockets }, [sock])
    | none => (false, s, [])

/-- `UDPv6Transport::DoLocatorsMatch`. -/
def DoLocatorsMatch (cfg : TransportConfig) (left right : Locator) : Bool :=
  if cfg.granularMode then decide (left = right) else left.port == right.port

/-- The locator the comment in `RemoteToMainLocal` describes: copy of the
remote with every address byte set to zero (`memset(mainLocal.address, 0)`). -/
def mainLocalOf (remote : Locator) : Locator :=
  { remote with address := anyAddr }

/-- The `Locator_t` produced by the C++ `return false;` statement in
`RemoteToMainLocal` through the implicit conversion of the locator header
(a default-constructed locator; its exact field values are outside this
translation unit and never relevant here, since that branch only serves
unsupported locators). -/
def rejectedLocator : Locator :=
  { kind := LOCATOR_KIND_UDPv4, port := 0, address := anyAddr }

/-- `UDPv6Transport::RemoteToMainLocal`: builds `mainLocalOf remote`, then
returns `remote` itself (the zeroed copy is dead). -/
def RemoteToMainLocal (remote : Locator) : Locator :=
  if !IsLocatorSupported remote then rejectedLocator
  else remote

/-- `UDPv6Transport::SendThroughSocket`: the `send_to` call, with any
exception caught and turned into `false`. -/
def SendThroughSocket (env : Env) (remoteLocator : Locator) (sock : Socket) : Bool :=
  env.writeOk sock remoteLocator

/-- The sockets registered under the output-channel key of `l`. -/
def registeredOutputSockets (cfg : TransportConfig) (s : TransportState)
    (l : Locator) : List Socket :=
  if cfg.granularMode then (alookup l s.granularOutputSockets).elim [] (fun k => [k])
  else (alookup l.port s.outputSockets).getD []

/-- `UDPv6Transport::Send`; the second component is the list of sockets a
write was attempted on. -/
def Send (cfg : TransportConfig) (env : Env) (s : TransportState)
    (sendBufferSize : Nat) (localLocator remoteLocator : Locator) :
    Bool × List Socket :=
  if !IsOutputChannelOpen cfg s localLocator || cfg.sendBufferSize < sendBufferSize then
    (false, [])
  else if cfg.granularMode then
    match alookup localLocator s.granularOutputSockets with
    | some sock => (SendThroughSocket env remoteLocator sock, [sock])
    | none => (false, [])
  else
    match alookup localLocator.port s.outputSockets with
    | some socks => (socks.any (SendThroughSocket env remoteLocator), socks)
    | none => (false, [])

/-- `maximumMessageSize` (file-static hard cap). -/
def maximumMessageSize : Nat := 65500

/-- `maximumUDPSocketSize` (file-static, descriptor default buffer size). -/
def maximumUDPSocketSize : Nat := 65536

/-- `UDPv6Transport::init`: the configuration checks; the second component
records whether the background I/O service thread was started. -/
def init (cfg : TransportConfig) : Bool × Bool :=
  if cfg.maxMessageSize > maximumMessageSize then (false, false)
  else if cfg.maxMessageSize > cfg.sendBufferSize then (false, false)
  else if cfg.maxMessageSize > cfg.receiveBufferSize then (false, false)
  else (true, true)

/-- The wildcard test of `NormalizeLocator`: all sixteen address bytes
compared with zero, exactly as written in the source. -/
def hasWildcardAddress (l : Locator) : Bool :=
  l.address 0 == 0 && l.address 1 == 0 &&
  l.address 2 == 0 && l.address 3 == 0 &&
  l.address 4 == 0 && l.address 5 == 0 &&
  l.address 6 == 0 && l.address 7 == 0 &&
  l.address 8 == 0 && l.address 9 == 0 &&
  l.address 10 == 0 && l.address 11 == 0 &&
  l.address 12 == 0 && l.address 13 == 0 &&
  l.address 14 == 0 && l.address 15 == 0

/-- `UDPv6Transport::NormalizeLocator`. -/
def NormalizeLocator (env : Env) (l : Locator) : List Locator :=
  if hasWildcardAddress l then
    (GetIP6s env.interfaces).map
      (fun info => { info.locator with kind := l.kind, port := l.port })
  else [l]

/-! Helper lemmas about the association-list registries. -/

theorem alookup_aerase {α β : Type} [DecidableEq α] (k : α) (m : List (α × β)) :
    alookup k (aerase k m) = none := by
  induction m with
  | nil => rfl
  | cons p rest ih =>
    obtain ⟨a, b⟩ := p
    by_cases h : a = k
    · simpa [aerase, h] using ih
    · simp [aerase, alookup, h, ih]

theorem hasWildcardAddress_iff (l : Locator) :
    hasWildcardAddress l = true ↔ ∀ i : Fin 16, l.address i = 0 := by
  constructor
  · intro h i
    simp only [hasWildcardAddress, Bool.and_eq_true, beq_iff_eq] at h
    fin_cases i <;> simp_all
  · intro h
    simp [hasWildcardAddress, h]

/-! Sample configurations, environments and states used by witnesses and
counterexamples. -/

/-- Shared-mode configuration with no whitelist and default buffer sizes. -/
def sharedCfg : TransportConfig :=
  { maxMessageSize := 65500, sendBufferSize := 65536, receiveBufferSize := 65536,
    granularMode := false, interfaceWhiteList := [] }

/-- Environment with no interfaces where every bind and write succeeds. -/
def env0 : Env :=
  { interfaces := [],
    outBindOk := fun _ _ => true,
    inBindOk := fun _ => true,
    writeOk := fun _ _ => true }

/-- A socket bound to the wildcard address on port 7400. -/
def sock0 : Socket := (anyAddr, 7400)

/-- State with the shared output channel and the input channel of port
7400 both open. -/
def stateOpen : TransportState :=
  { outputSockets := [(7400, [sock0])],
    granularOutputSockets := [],
    inputSockets := [(7400, sock0)],
    joinedGroups := [] }

/-- State with no channel open. -/
def state0 : TransportState :=
  { outputSockets := [], granularOutputSockets := [], inputSockets := [],
    joinedGroups := [] }

/-- A supported (UDPv6) locator on port 7400 with the wildcard address. -/
def udpLoc : Locator :=
  { kind := LOCATOR_KIND_UDPv6, port := 7400, address := anyAddr }

/-- A supported multicast locator (first address byte `0xFF`) on port 7400. -/
def mcastLoc : Locator :=
  { kind := LOCATOR_KIND_UDPv6, port := 7400,
    address := fun i => if i = 0 then 255 else 0 }

/-- A foreign-kind (UDPv4) locator on port 7400, wildcard address. -/
def foreignLocA : Locator :=
  { kind := LOCATOR_KIND_UDPv4, port := 7400, address := anyAddr }

/-- A foreign-kind (UDPv4) locator on port 7400 with a non-zero address. -/
def foreignLocB : Locator :=
  { kind := LOCATOR_KIND_UDPv4, port := 7400,
    address := fun i => if i = 0 then 1 else 0 }

/-! Claims. -/

/-- C2: for every locator whose kind is not UDPv6, each of the six channel
operations returns failure and leaves all registries unchanged. -/
theorem foreign_kind_channel_ops_fail_closed (cfg : TransportConfig) (env : Env)
    (s : TransportState) (l : Locator) (hk : l.kind ≠ LOCATOR_KIND_UDPv6) :
    OpenOutputChannel cfg env s l = (false, s) ∧
    OpenInputChannel cfg env s l = (false, s) ∧
    CloseOutputChannel cfg s l = (false, s, []) ∧
    CloseInputChannel s l = (false, s, []) ∧
    IsOutputChannelOpen cfg s l = false ∧
    IsInputChannelOpen s l = false := by
  have hsup : IsLocatorSupported l = false := by
    simp [IsLocatorSupported, hk]
  refine ⟨?_, ?_, ?_, ?_, ?_, ?_⟩ <;>
    simp [OpenOutputChannel, OpenInputChannel, CloseOutputChannel, CloseInputChannel,
      IsOutputChannelOpen, IsInputChannelOpen, hsup]

theorem foreign_kind_channel_ops_fail_closed_witness :
    foreignLocA.kind ≠ LOCATOR_KIND_UDPv6 ∧
    (OpenOutputChannel sharedCfg env0 stateOpen foreignLocA = (false, stateOpen) ∧
     OpenInputChannel sharedCfg env0 stateOpen foreignLocA = (false, stateOpen) ∧
     CloseOutputChannel sharedCfg stateOpen foreignLocA = (false, stateOpen, []) ∧
     CloseInputChannel stateOpen foreignLocA = (false, stateOpen, []) ∧
     IsOutputChannelOpen sharedCfg stateOpen foreignLocA = false ∧
     IsInputChannelOpen stateOpen foreignLocA = false) :=
  ⟨by decide, foreign_kind_channel_ops_fail_closed sharedCfg env0 stateOpen foreignLocA
      (by decide)⟩

/-- C4: `init` succeeds iff the maximum message size respects the 65500
hard cap and both configured buffer sizes, and the background I/O thread
is started exactly when `init` succeeds (so a configuration failure never
leaves a started-but-unjoined thread). -/
theorem init_validates_configuration (cfg : TransportConfig) :
    ((init cfg).1 = true ↔
      cfg.maxMessageSize ≤ maximumMessageSize ∧
      cfg.maxMessageSize ≤ cfg.sendBufferSize ∧
      cfg.maxMessageSize ≤ cfg.receiveBufferSize) ∧
    (init cfg).2 = (init cfg).1 := by
  unfold init
  split_ifs with h1 h2 h3 <;> simp <;> omega

/-- A supported remote locator with a non-zero address byte. -/
def remoteSample : Locator :=
  { kind := LOCATOR_KIND_UDPv6, port := 7400,
    address := fun i => if i = 0 then 1 else 0 }

/-- C8: the code returns the remote locator unchanged — the zeroed copy
`mainLocalOf remoteSample` that the function body computes is discarded —
so the result's address bytes are not all zero, contradicting the claimed
"canonical any-local-address" result. -/
theorem remote_to_main_local_returns_remote_unchanged :
    RemoteToMainLocal remoteSample = remoteSample ∧
    (RemoteToMainLocal remoteSample).address 0 = 1 ∧
    mainLocalOf remoteSample ≠ remoteSample := by
  refine ⟨?_, ?_, ?_⟩ <;> decide

/-- C9 (counterexample): in shared mode, two locators of foreign kind
(UDPv4) with equal ports match under `DoLocatorsMatch`, so the kind is not
checked and the operation does not fail closed on foreign kinds. -/
theorem do_locators_match_ignores_kind :
    foreignLocA.kind ≠ LOCATOR_KIND_UDPv6 ∧
    foreignLocB.kind ≠ LOCATOR_KIND_UDPv6 ∧
    DoLocatorsMatch sharedCfg foreignLocA foreignLocB = true := by
  refine ⟨?_, ?_, ?_⟩ <;> decide

/-- C9 (amended): the channel operations do fail closed on a foreign-kind
locator, but `DoLocatorsMatch` ignores the kind entirely (port equality in
shared mode, full equality in granular mode, even for foreign kinds) and
`NormalizeLocator` expands a foreign-kind wildcard locator — preserving
its foreign kind — instead of failing closed. -/
theorem locator_kind_checks_amended (cfg : TransportConfig) (env : Env)
    (s : TransportState) (l r : Locator) (hk : l.kind ≠ LOCATOR_KIND_UDPv6) :
    IsLocatorSupported l = false ∧
    OpenOutputChannel cfg env s l = (false, s) ∧
    OpenInputChannel cfg env s l = (false, s) ∧
    CloseOutputChannel cfg s l = (false, s, []) ∧
    CloseInputChannel s l = (false, s, []) ∧
    (cfg.granularMode = false → (DoLocatorsMatch cfg l r = true ↔ l.port = r.port)) ∧
    (cfg.granularMode = true → (DoLocatorsMatch cfg l r = true ↔ l = r)) ∧
    ((∀ i : Fin 16, l.address i = 0) →
      (NormalizeLocator env l).length = (GetIP6s env.interfaces).length ∧
      ∀ m ∈ NormalizeLocator env l, m.kind = l.kind ∧ m.port = l.port) := by
  have hsup : IsLocatorSupported l = false := by
    simp [IsLocatorSupported, hk]
  have hw : (∀ i : Fin 16, l.address i = 0) → hasWildcardAddress l = true :=
    (hasWildcardAddress_iff l).mpr
  refine ⟨hsup, ?_, ?_, ?_, ?_, ?_, ?_, ?_⟩
  · simp [OpenOutputChannel, IsOutputChannelOpen, hsup]
  · simp [OpenInputChannel, hsup]
  · simp [CloseOutputChannel, IsOutputChannelOpen, hsup]
  · simp [CloseInputChannel, IsInputChannelOpen, hsup]
  · intro hg; simp [DoLocatorsMatch, hg]
  · intro hg; simp [DoLocatorsMatch, hg]
  · intro hz
    constructor
    · simp [NormalizeLocator, hw hz]
    · intro m hm
      simp only [NormalizeLocator, hw hz, if_true, List.mem_map] at hm
      obtain ⟨info, _, rfl⟩ := hm
      exact ⟨rfl, rfl⟩

theorem locator_kind_checks_amended_witness :
    foreignLocA.kind ≠ LOCATOR_KIND_UDPv6 ∧
    (IsLocatorSupported foreignLocA = false ∧
     OpenOutputChannel sharedCfg env0 state0 foreignLocA = (false, state0) ∧
     OpenInputChannel sharedCfg env0 state0 foreignLocA = (false, state0) ∧
     CloseOutputChannel sharedCfg state0 foreignLocA = (false, state0, []) ∧
     CloseInputChannel state0 foreignLocA = (false, state0, []) ∧
     (sharedCfg.granularMode = false →
       (DoLocatorsMatch sharedCfg foreignLocA foreignLocB = true ↔
         foreignLocA.port = foreignLocB.port)) ∧
     (sharedCfg.granularMode = true →
       (DoLocatorsMatch sharedCfg foreignLocA foreignLocB = true ↔
         foreignLocA = foreignLocB)) ∧
     ((∀ i : Fin 16, foreignLocA.address i = 0) →
       (NormalizeLocator env0 foreignLocA).length = (GetIP6s env0.interfaces).length ∧
       ∀ m ∈ NormalizeLocator env0 foreignLocA,
         m.kind = foreignLocA.kind ∧ m.port = foreignLocA.port)) :=
  ⟨by decide,
   locator_kind_checks_amended sharedCfg env0 state0 foreignLocA foreignLocB (by decide)⟩

/-- C3: `NormalizeLocator` on an all-zero (wildcard) address returns one
locator per local IPv6 interface, each with the input's kind and port; on
any locator with a non-zero address byte it returns the singleton input. -/
theorem normalize_locator_spec (env : Env) (l : Locator) :
    ((∀ i : Fin 16, l.address i = 0) →
      NormalizeLocator env l =
        (GetIP6s env.interfaces).map
          (fun info => { info.locator with kind := l.kind, port := l.port }) ∧
      (NormalizeLocator env l).length = (GetIP6s env.interfaces).length ∧
      ∀ m ∈ NormalizeLocator env l, m.kind = l.kind ∧ m.port = l.port) ∧
    ((∃ i : Fin 16, l.address i ≠ 0) → NormalizeLocator env l = [l]) := by
  constructor
  · intro hz
    have hw : hasWildcardAddress l = true := (hasWildcardAddress_iff l).mpr hz
    refine ⟨by simp [NormalizeLocator, hw], by simp [NormalizeLocator, hw], ?_⟩
    intro m hm
    simp only [NormalizeLocator, hw, if_true, List.mem_map] at hm
    obtain ⟨info, _, rfl⟩ := hm
    exact ⟨rfl, rfl⟩
  · intro hnz
    have hw : hasWildcardAddress l = false := by
      rcases hnz with ⟨i, hi⟩
      cases h : hasWildcardAddress l
      · rfl
      · exact absurd ((hasWildcardAddress_iff l).mp h i) hi
    simp [NormalizeLocator, hw]

/-- An interface address distinct from the wildcard. -/
def addrA : Addr := fun i => if i = 0 then 254 else 0

/-- The locator reported by the interface finder for `addrA`. -/
def ifaceLoc : Locator := { kind := LOCATOR_KIND_UDPv6, port := 0, address := addrA }

/-- Environment with one IPv6 interface and one IPv4 interface. -/
def envIf : Env :=
  { interfaces := [⟨IPType.IP6, addrA, ifaceLoc⟩, ⟨IPType.IP4, anyAddr, foreignLocA⟩],
    outBindOk := fun _ _ => true,
    inBindOk := fun _ => true,
    writeOk := fun _ _ => true }

theorem normalize_locator_spec_witness :
    (∀ i : Fin 16, udpLoc.address i = 0) ∧
    (NormalizeLocator envIf udpLoc =
      (GetIP6s envIf.interfaces).map
        (fun info => { info.locator with kind := udpLoc.kind, port := udpLoc.port }) ∧
     (NormalizeLocator envIf udpLoc).length = (GetIP6s envIf.interfaces).length ∧
     ∀ m ∈ NormalizeLocator envIf udpLoc, m.kind = udpLoc.kind ∧ m.port = udpLoc.port) :=
  ⟨by decide, (normalize_locator_spec envIf udpLoc).1 (by decide)⟩

/-- C5: opening an already-open output channel returns failure and leaves
the state untouched; opening an already-open input channel returns failure
and leaves all three socket registries untouched. -/
theorem reopen_channel_fails (cfg : TransportConfig) (env : Env)
    (s : TransportState) (l : Locator) :
    (IsOutputChannelOpen cfg s l = true → OpenOutputChannel cfg env s l = (false, s)) ∧
    (IsInputChannelOpen s l = true →
      (OpenInputChannel cfg env s l).1 = false ∧
      (OpenInputChannel cfg env s l).2.inputSockets = s.inputSockets ∧
      (OpenInputChannel cfg env s l).2.outputSockets = s.outputSockets ∧
      (OpenInputChannel cfg env s l).2.granularOutputSockets = s.granularOutputSockets) := by
  constructor
  · intro h
    simp [OpenOutputChannel, h]
  · intro h
    have hsup : IsLocatorSupported l = true := by
      have := h
      simp only [IsInputChannelOpen, Bool.and_eq_true] at this
      exact this.1
    simp only [OpenInputChannel, hsup, Bool.not_true, if_false, h]
    cases hmc : IsMulticastAddress l <;> simp [h]

theorem reopen_channel_fails_witness :
    IsOutputChannelOpen sharedCfg stateOpen udpLoc = true ∧
    OpenOutputChannel sharedCfg env0 stateOpen udpLoc = (false, stateOpen) ∧
    IsInputChannelOpen stateOpen udpLoc = true ∧
    ((OpenInputChannel sharedCfg env0 stateOpen udpLoc).1 = false ∧
     (OpenInputChannel sharedCfg env0 stateOpen udpLoc).2.inputSockets =
       stateOpen.inputSockets ∧
     (OpenInputChannel sharedCfg env0 stateOpen udpLoc).2.outputSockets =
       stateOpen.outputSockets ∧
     (OpenInputChannel sharedCfg env0 stateOpen udpLoc).2.granularOutputSockets =
       stateOpen.granularOutputSockets) :=
  ⟨by decide,
   (reopen_channel_fails sharedCfg env0 stateOpen udpLoc).1 (by decide),
   by decide,
   (reopen_channel_fails sharedCfg env0 stateOpen udpLoc).2 (by decide)⟩

theorem outputOpen_granular_lookup (cfg : TransportConfig) (s : TransportState)
    (l : Locator) (hg : cfg.granularMode = true)
    (h : IsOutputChannelOpen cfg s l = true) :
    IsLocatorSupported l = true ∧ ∃ sock, alookup l s.granularOutputSockets = some sock := by
  unfold IsOutputChannelOpen at h
  cases hs : IsLocatorSupported l with
  | false => rw [hs] at h; simp at h
  | true =>
    rw [hs, hg] at h
    simp only [Bool.not_true, if_false, if_true] at h
    exact ⟨rfl, Option.isSome_iff_exists.mp h⟩

theorem outputOpen_shared_lookup (cfg : TransportConfig) (s : TransportState)
    (l : Locator) (hg : cfg.granularMode = false)
    (h : IsOutputChannelOpen cfg s l = true) :
    IsLocatorSupported l = true ∧ ∃ socks, alookup l.port s.outputSockets = some socks := by
  unfold IsOutputChannelOpen at h
  cases hs : IsLocatorSupported l with
  | false => rw [hs] at h; simp at h
  | true =>
    rw [hs, hg] at h
    simp only [Bool.not_true, if_false] at h
    exact ⟨rfl, Option.isSome_iff_exists.mp h⟩

theorem inputOpen_lookup (s : TransportState) (l : Locator)
    (h : IsInputChannelOpen s l = true) :
    IsLocatorSupported l = true ∧ ∃ sock, alookup l.port s.inputSockets = some sock := by
  simp only [IsInputChannelOpen, Bool.and_eq_true] at h
  exact ⟨h.1, Option.isSome_iff_exists.mp h.2⟩

/-- C6: closing a channel that is not open returns failure and changes
nothing; closing an open channel succeeds, cancels and closes exactly the
sockets registered under the key, and the corresponding open query returns
false immediately afterward. -/
theorem close_channel_spec (cfg : TransportConfig) (s : TransportState) (l : Locator) :
    (IsOutputChannelOpen cfg s l = false → CloseOutputChannel cfg s l = (false, s, [])) ∧
    (IsInputChannelOpen s l = false → CloseInputChannel s l = (false, s, [])) ∧
    (IsOutputChannelOpen cfg s l = true →
      (CloseOutputChannel cfg s l).1 = true ∧
      (CloseOutputChannel cfg s l).2.2 = registeredOutputSockets cfg s l ∧
      IsOutputChannelOpen cfg (CloseOutputChannel cfg s l).2.1 l = false) ∧
    (IsInputChannelOpen s l = true →
      (CloseInputChannel s l).1 = true ∧
      (CloseInputChannel s l).2.2 = (alookup l.port s.inputSockets).elim [] (fun k => [k]) ∧
      IsInputChannelOpen (CloseInputChannel s l).2.1 l = false) := by
  refine ⟨?_, ?_, ?_, ?_⟩
  · intro h; simp [CloseOutputChannel, h]
  · intro h; simp [CloseInputChannel, h]
  · intro h
    by_cases hg : cfg.granularMode
    · obtain ⟨hsup, sock, hx⟩ := outputOpen_granular_lookup cfg s l hg h
      simp only [CloseOutputChannel, h, Bool.not_true, if_false, hg, if_true, hx]
      refine ⟨rfl, ?_, ?_⟩
      · simp [registeredOutputSockets, hg, hx]
      · simp [IsOutputChannelOpen, hg, alookup_aerase]
    · have hg' : cfg.granularMode = false := by simpa using hg
      obtain ⟨hsup, socks, hx⟩ := outputOpen_shared_lookup cfg s l hg' h
      simp only [CloseOutputChannel, h, Bool.not_true, if_false, hg', hx]
      refine ⟨rfl, ?_, ?_⟩
      · simp [registeredOutputSockets, hg', hx]
      · simp [IsOutputChannelOpen, hg', alookup_aerase]
  · intro h
    obtain ⟨hsup, sock, hx⟩ := inputOpen_lookup s l h
    simp only [CloseInputChannel, h, Bool.not_true, if_false, hx]
    refine ⟨rfl, by simp [hx], ?_⟩
    simp [IsInputChannelOpen, alookup_aerase]

theorem close_channel_spec_witness :
    IsOutputChannelOpen sharedCfg state0 udpLoc = false ∧
    CloseOutputChannel sharedCfg state0 udpLoc = (false, state0, []) ∧
    IsOutputChannelOpen sharedCfg stateOpen udpLoc = true ∧
    ((CloseOutputChannel sharedCfg stateOpen udpLoc).1 = true ∧
     (CloseOutputChannel sharedCfg stateOpen udpLoc).2.2 =
       registeredOutputSockets sharedCfg stateOpen udpLoc ∧
     IsOutputChannelOpen sharedCfg (CloseOutputChannel sharedCfg stateOpen udpLoc).2.1
       udpLoc = false) ∧
    IsInputChannelOpen stateOpen udpLoc = true ∧
    ((CloseInputChannel stateOpen udpLoc).1 = true ∧
     (CloseInputChannel stateOpen udpLoc).2.2 =
       (alookup udpLoc.port stateOpen.inputSockets).elim [] (fun k => [k]) ∧
     IsInputChannelOpen (CloseInputChannel stateOpen udpLoc).2.1 udpLoc = false) :=
  ⟨by decide,
   (close_channel_spec sharedCfg state0 udpLoc).1 (by decide),
   by decide,
   (close_channel_spec sharedCfg stateOpen udpLoc).2.2.1 (by decide),
   by decide,
   (close_channel_spec sharedCfg stateOpen udpLoc).2.2.2 (by decide)⟩

/-- C7: a second `OpenInputChannel` on a multicast locator whose port is
already open adds no registry entry (the input-socket map is unchanged),
joins the group on the existing per-port socket, and consults no fallible
operation of the environment — its outcome is identical under every
environment, so no bind error can occur. -/
theorem reopen_multicast_input_channel (cfg : TransportConfig) (env : Env)
    (s : TransportState) (l : Locator)
    (hm : IsMulticastAddress l = true) (ho : IsInputChannelOpen s l = true) :
    (OpenInputChannel cfg env s l).2.inputSockets = s.inputSockets ∧
    (OpenInputChannel cfg env s l).2.joinedGroups =
      s.joinedGroups ++ [(l.port, l.address)] ∧
    (∀ env2 : Env, OpenInputChannel cfg env2 s l = OpenInputChannel cfg env s l) := by
  have hsup : IsLocatorSupported l = true := (inputOpen_lookup s l ho).1
  have key : ∀ e : Env, OpenInputChannel cfg e s l =
      (false, { s with joinedGroups := s.joinedGroups ++ [(l.port, l.address)] }) := by
    intro e
    simp [OpenInputChannel, hsup, ho, hm]
  exact ⟨by rw [key env], by rw [key env], fun e2 => by rw [key e2, key env]⟩

theorem reopen_multicast_input_channel_witness :
    IsMulticastAddress mcastLoc = true ∧
    IsInputChannelOpen stateOpen mcastLoc = true ∧
    ((OpenInputChannel sharedCfg env0 stateOpen mcastLoc).2.inputSockets =
       stateOpen.inputSockets ∧
     (OpenInputChannel sharedCfg env0 stateOpen mcastLoc).2.joinedGroups =
       stateOpen.joinedGroups ++ [(mcastLoc.port, mcastLoc.address)] ∧
     (∀ env2 : Env, OpenInputChannel sharedCfg env2 stateOpen mcastLoc =
        OpenInputChannel sharedCfg env0 stateOpen mcastLoc)) :=
  ⟨by decide, by decide,
   reopen_multicast_input_channel sharedCfg env0 stateOpen mcastLoc
     (by decide) (by decide)⟩

/-- C1: `Send` fails without attempting any write when the channel is not
open or the length exceeds the configured send-buffer size; otherwise it
attempts a write on every socket registered under the channel key and
succeeds iff at least one per-socket write succeeds. -/
theorem send_fanout (cfg : TransportConfig) (env : Env) (s : TransportState)
    (n : Nat) (ll rl : Locator) :
    ((IsOutputChannelOpen cfg s ll = false ∨ cfg.sendBufferSize < n) →
      Send cfg env s n ll rl = (false, [])) ∧
    (IsOutputChannelOpen cfg s ll = true → n ≤ cfg.sendBufferSize →
      (Send cfg env s n ll rl).2 = registeredOutputSockets cfg s ll ∧
      ((Send cfg env s n ll rl).1 = true ↔
        ∃ k ∈ (Send cfg env s n ll rl).2, SendThroughSocket env rl k = true)) := by
  constructor
  · rintro (h | h)
    · simp [Send, h]
    · simp [Send, h]
  · intro ho hn
    have hn' : ¬ (cfg.sendBufferSize < n) := by omega
    by_cases hg : cfg.granularMode
    · obtain ⟨hsup, sock, hx⟩ := outputOpen_granular_lookup cfg s ll hg ho
      simp [Send, ho, hn', hg, hx, registeredOutputSockets]
    · have hg' : cfg.granularMode = false := by simpa using hg
      obtain ⟨hsup, socks, hx⟩ := outputOpen_shared_lookup cfg s ll hg' ho
      simp [Send, ho, hn', hg', hx, registeredOutputSockets, List.any_eq_true]

theorem send_fanout_witness :
    IsOutputChannelOpen sharedCfg stateOpen udpLoc = true ∧
    100 ≤ sharedCfg.sendBufferSize ∧
    ((Send sharedCfg env0 stateOpen 100 udpLoc udpLoc).2 =
       registeredOutputSockets sharedCfg stateOpen udpLoc ∧
     ((Send sharedCfg env0 stateOpen 100 udpLoc udpLoc).1 = true ↔
       ∃ k ∈ (Send sharedCfg env0 stateOpen 100 udpLoc udpLoc).2,
         SendThroughSocket env0 udpLoc k = true)) :=
  ⟨by decide, by decide,
   (send_fanout sharedCfg env0 stateOpen 100 udpLoc udpLoc).2 (by decide) (by decide)⟩

theorem bindWhitelisted_all_disallowed (cfg : TransportConfig) (env : Env)
    (port : Nat) (infos : List InfoIP) (m : List (Nat × List Socket))
    (h : ∀ info ∈ infos, IsInterfaceAllowed cfg info.name = false) :
    bindWhitelisted cfg env port infos m = (true, m) := by
  induction infos with
  | nil => rfl
  | cons info rest ih =>
    have h1 : IsInterfaceAllowed cfg info.name = false :=
      h info (List.mem_cons_self info rest)
    simp only [bindWhitelisted, h1, Bool.false_eq_true, if_false]
    exact ih (fun i hi => h i (List.mem_cons_of_mem info hi))

/-- C10: in shared mode with a non-empty whitelist that allows none of the
local IPv6 interfaces, opening a fresh supported output channel returns
success while registering nothing: the channel still reads as closed and
`Send` through it fails. -/
theorem open_output_whitelist_mismatch (cfg : TransportConfig) (env : Env)
    (s : TransportState) (l : Locator) (n : Nat) (rl : Locator)
    (hg : cfg.granularMode = false)
    (hw : cfg.interfaceWhiteList ≠ [])
    (hno : ∀ info ∈ GetIP6s env.interfaces, IsInterfaceAllowed cfg info.name = false)
    (hsup : IsLocatorSupported l = true)
    (hnot : IsOutputChannelOpen cfg s l = false) :
    OpenOutputChannel cfg env s l = (true, s) ∧
    IsOutputChannelOpen cfg (OpenOutputChannel cfg env s l).2 l = false ∧
    Send cfg env (OpenOutputChannel cfg env s l).2 n l rl = (false, []) := by
  have hne : cfg.interfaceWhiteList.isEmpty = false := by
    cases hcw : cfg.interfaceWhiteList with
    | nil => exact absurd hcw hw
    | cons a t => rfl
  have hopen : OpenOutputChannel cfg env s l = (true, s) := by
    simp only [OpenOutputChannel, hnot, hsup, Bool.not_true, Bool.or_false,
      Bool.false_eq_true, if_false, hg, OpenAndBindOutputSockets, hne,
      bindWhitelisted_all_disallowed cfg env l.port (GetIP6s env.interfaces)
        s.outputSockets hno]
  refine ⟨hopen, ?_, ?_⟩
  · rw [hopen]; exact hnot
  · rw [hopen]; simp [Send, hnot]

/-- An interface address outside the witness whitelist. -/
def addrB : Addr := fun i => if i = 0 then 253 else 0

/-- Shared-mode configuration whose whitelist holds only `addrA`. -/
def cfgWl : TransportConfig :=
  { maxMessageSize := 65500, sendBufferSize := 65536, receiveBufferSize := 65536,
    granularMode := false, interfaceWhiteList := [addrA] }

/-- Environment whose only IPv6 interface has the non-whitelisted `addrB`. -/
def envWl : Env :=
  { interfaces := [⟨IPType.IP6, addrB, ifaceLoc⟩],
    outBindOk := fun _ _ => true,
    inBindOk := fun _ => true,
    writeOk := fun _ _ => true }

theorem open_output_whitelist_mismatch_witness :
    cfgWl.granularMode = false ∧
    cfgWl.interfaceWhiteList ≠ [] ∧
    (∀ info ∈ GetIP6s envWl.interfaces, IsInterfaceAllowed cfgWl info.name = false) ∧
    IsLocatorSupported udpLoc = true ∧
    IsOutputChannelOpen cfgWl state0 udpLoc = false ∧
    (OpenOutputChannel cfgWl envWl state0 udpLoc = (true, state0) ∧
     IsOutputChannelOpen cfgWl (OpenOutputChannel cfgWl envWl state0 udpLoc).2
       udpLoc = false ∧
     Send cfgWl envWl (OpenOutputChannel cfgWl envWl state0 udpLoc).2 100 udpLoc
       udpLoc = (false, [])) :=
  ⟨by decide, by decide, by decide, by decide, by decide,
   open_output_whitelist_mismatch cfgWl envWl state0 udpLoc 100 udpLoc
     (by decide) (by decide) (by decide) (by decide) (by decide)⟩

end UDPv6Transport
